import Mathlib

/-!
Shallow embedding of the match-and-budget engine of Setlist2YTMusic:
`video_cache.py` (class VideoCache), `youtube_client.py` (the search,
matching and quota logic of class YouTubeClient) and the per-track loop of
`process_playlist_creation` in `main.py`.

Modelling conventions:
* Time is modeled in whole hours as an `Int`; `timedelta(days=7)` becomes
  the constant `sevenDaysHours = 168`.
* An ISO-8601 timestamp string is abstracted to the instant it denotes: a
  stored timestamp is `some t` when `datetime.fromisoformat` would return
  instant `t`, and `none` when it would raise `ValueError`.
* The Python dict `self.cache` is modeled as an association list; the
  persisted JSON file is a second copy (`disk`) updated by `save_cache`.
* The remote search provider is an oracle `String -> SearchOutcome`; the
  playlist sink is an oracle `String -> Bool`.
-/

namespace Setlist2YTMusic

/-- `Track` from `setlist_parser.py`: song title, performing artist,
optional original artist for covers, cover flag and tape flag. -/
structure Track where
  title : String
  artist : String
  original_artist : Option String
  is_cover : Bool
  is_tape : Bool
  deriving DecidableEq

/-- `CacheEntry` from `video_cache.py`.  The `timestamp` field abstracts
the stored ISO-8601 string to the instant it denotes (`none` models a
string on which `datetime.fromisoformat` raises `ValueError`). -/
structure CacheEntry where
  video_id : String
  title : String
  channel : String
  timestamp : Option Int
  search_query : String
  deriving DecidableEq

/-- Model of Python `str.lower` (ASCII case folding). -/
def py_lower (s : String) : String :=
  ⟨s.data.map Char.toLower⟩

/-- Model of Python `str.strip`: drop leading and trailing whitespace. -/
def py_strip (s : String) : String :=
  ⟨((s.data.dropWhile Char.isWhitespace).reverse.dropWhile Char.isWhitespace).reverse⟩

/-- `VideoCache.get_cache_key`: `f"{song_title.lower().strip()}|{artist.lower().strip()}"`. -/
def get_cache_key (song_title : String) (artist : String) : String :=
  py_strip (py_lower song_title) ++ "|" ++ py_strip (py_lower artist)

/-- Association-list lookup modelling Python `dict.get`. -/
def lookupKey : List (String × CacheEntry) → String → Option CacheEntry
  | [], _ => none
  | (k, e) :: rest, key => if k = key then some e else lookupKey rest key

/-- Association-list deletion modelling Python `del d[key]`. -/
def eraseKey : List (String × CacheEntry) → String → List (String × CacheEntry)
  | [], _ => []
  | (k, e) :: rest, key =>
    if k = key then eraseKey rest key else (k, e) :: eraseKey rest key

/-- Association-list update modelling Python `d[key] = value`. -/
def insertKey (m : List (String × CacheEntry)) (key : String) (e : CacheEntry) :
    List (String × CacheEntry) :=
  (key, e) :: eraseKey m key

/-- In-memory dict (`self.cache`) plus the persisted file contents
(`disk`), which `save_cache` overwrites with the in-memory state. -/
structure VideoCache where
  cache : List (String × CacheEntry)
  disk : List (String × CacheEntry)
  deriving DecidableEq

/-- `timedelta(days=7)` in hours. -/
def sevenDaysHours : Int := 168

/-- `VideoCache.get`: look the key up; a fresh entry (age strictly below 7
days) is returned unchanged; an expired or unparseable-timestamp entry is
deleted, the deletion is persisted (`save_cache`), and `None` is returned. -/
def VideoCache.get (vc : VideoCache) (now : Int) (song_title : String) (artist : String) :
    Option CacheEntry × VideoCache :=
  let key := get_cache_key song_title artist
  match lookupKey vc.cache key with
  | none => (none, vc)
  | some entry =>
    match entry.timestamp with
    | some cache_time =>
      if now - cache_time < sevenDaysHours then
        (some entry, vc)
      else
        let m := eraseKey vc.cache key
        (none, ⟨m, m⟩)
    | none =>
      let m := eraseKey vc.cache key
      (none, ⟨m, m⟩)

/-- `VideoCache.set`: store a fresh entry stamped `datetime.now()` and
persist immediately (`save_cache`). -/
def VideoCache.set (vc : VideoCache) (now : Int) (song_title : String) (artist : String)
    (video_id : String) (title : String) (channel : String) (search_query : String) :
    VideoCache :=
  let key := get_cache_key song_title artist
  let entry : CacheEntry := ⟨video_id, title, channel, some now, search_query⟩
  let m := insertKey vc.cache key entry
  ⟨m, m⟩

/-- `YouTubeClient.check_quota_limit`: `self.quota_used + additional_quota < 9500`. -/
def check_quota_limit (quota_used : Int) (additional_quota : Int) : Bool :=
  decide (quota_used + additional_quota < 9500)

/-- Modelled from the spec: the provider's daily quota allowance. -/
def dailyLimit : Int := 10000

/-- Modelled from the spec: the safety buffer subtracted from the daily limit. -/
def safetyBuffer : Int := 500

/-- C6: `canAfford(u)` (`check_quota_limit`) returns true if and only if
`used() + u < dailyLimit - safetyBuffer`, i.e. `quota_used + u < 9500`. -/
theorem check_quota_limit_iff (q u : Int) :
    check_quota_limit q u = true ↔ q + u < dailyLimit - safetyBuffer := by
  simp [check_quota_limit, dailyLimit, safetyBuffer]

/-- C10: the cache key is not injective: `("a|b", "c")` and `("a", "b|c")`
are distinct song identities with the same key, and a result cached for the
first is returned on a lookup for the second. -/
theorem get_cache_key_not_injective :
    get_cache_key "a|b" "c" = get_cache_key "a" "b|c" ∧
    ("a|b", "c") ≠ (("a", "b|c") : String × String) ∧
    (VideoCache.set ⟨[], []⟩ 0 "a|b" "c" "vid" "t" "ch" "q").get 0 "a" "b|c"
      = (some ⟨"vid", "t", "ch", some 0, "q"⟩,
         VideoCache.set ⟨[], []⟩ 0 "a|b" "c" "vid" "t" "ch" "q") := by
  refine ⟨rfl, by decide, rfl⟩

/-- A fresh hit: if the key is present with a parseable timestamp of age
strictly below seven days, `get` returns the entry and leaves the cache
untouched. -/
theorem get_fresh (vc : VideoCache) (song_title artist : String) (entry : CacheEntry)
    (T now : Int)
    (hmem : lookupKey vc.cache (get_cache_key song_title artist) = some entry)
    (hts : entry.timestamp = some T) (hfresh : now - T < sevenDaysHours) :
    VideoCache.get vc now song_title artist = (some entry, vc) := by
  simp [VideoCache.get, hmem, hts, hfresh]

/-- C9: inputs that agree after case folding and whitespace trimming have
identical cache keys, every lookup treats them identically, and an entry
stored under one variant is returned by a lookup under the other. -/
theorem cache_key_normalization (t1 a1 t2 a2 : String)
    (ht : py_strip (py_lower t1) = py_strip (py_lower t2))
    (ha : py_strip (py_lower a1) = py_strip (py_lower a2)) :
    get_cache_key t1 a1 = get_cache_key t2 a2 ∧
    (∀ (vc : VideoCache) (now : Int),
      VideoCache.get vc now t1 a1 = VideoCache.get vc now t2 a2) ∧
    (∀ (now : Int) (vid vtitle ch q : String),
      (VideoCache.set ⟨[], []⟩ now t1 a1 vid vtitle ch q).get now t2 a2
        = (some ⟨vid, vtitle, ch, some now, q⟩,
           VideoCache.set ⟨[], []⟩ now t1 a1 vid vtitle ch q)) := by
  have hkey : get_cache_key t1 a1 = get_cache_key t2 a2 := by
    unfold get_cache_key
    rw [ht, ha]
  refine ⟨hkey, ?_, ?_⟩
  · intro vc now
    unfold VideoCache.get
    rw [hkey]
  · intro now vid vtitle ch q
    apply get_fresh _ _ _ _ now now
    · show lookupKey (insertKey [] (get_cache_key t1 a1) _) (get_cache_key t2 a2) = _
      rw [hkey]
      simp [insertKey, lookupKey, eraseKey]
    · rfl
    · simp [sevenDaysHours]

/-- C9 witness: a concrete casing/whitespace variant pair. -/
theorem cache_key_normalization_witness :
    get_cache_key " Hello " "WORLD" = get_cache_key "hello" " world " ∧
    VideoCache.get ⟨[], []⟩ 5 " Hello " "WORLD"
      = VideoCache.get ⟨[], []⟩ 5 "hello" " world " :=
  ⟨(cache_key_normalization " Hello " "WORLD" "hello" " world "
      (by decide) (by decide)).1,
   (cache_key_normalization " Hello " "WORLD" "hello" " world "
      (by decide) (by decide)).2.1 ⟨[], []⟩ 5⟩

/-- Outcome of one remote `search().list(...).execute()` call: a first
ranked item, an empty item list, or an `HttpError` raised by the library. -/
inductive SearchOutcome where
  | success (video_id : String) (title : String) (channel : String)
  | empty
  | httpError
  deriving DecidableEq

/-- The mutable state of `YouTubeClient`: its `VideoCache` and the
`self.quota_used` counter. -/
structure ClientState where
  cache : VideoCache
  quota_used : Int
  deriving DecidableEq

/-- `YouTubeClient.search_video`: charge 100 units, then issue the call;
an empty item list or an `HttpError` both yield `None`. -/
def search_video (provider : String → SearchOutcome) (st : ClientState) (query : String) :
    Option (String × String × String) × ClientState :=
  let st2 : ClientState := { st with quota_used := st.quota_used + 100 }
  match provider query with
  | .success video_id title channel => (some (video_id, title, channel), st2)
  | .empty => (none, st2)
  | .httpError => (none, st2)

/-- `YouTubeClient.add_video_to_playlist`: charge 50 units, then attempt
the insert; the sink oracle maps the video id to success or failure (an
`HttpError` during the insert is a `false`).  The playlist id does not
affect the modeled state and is omitted. -/
def add_video_to_playlist (sink : String → Bool) (st : ClientState) (video_id : String) :
    Bool × ClientState :=
  let st2 : ClientState := { st with quota_used := st.quota_used + 50 }
  (sink video_id, st2)

/-- `YouTubeClient.build_search_queries`.  The Python guard
`if track.is_cover and track.original_artist:` is truthy only when the
optional original artist is present and non-empty. -/
def build_search_queries (track : Track) : List String :=
  let oa := track.original_artist.getD ""
  let queries :=
    if track.is_cover ∧ oa ≠ "" then
      [track.title ++ " " ++ oa, track.title ++ " - " ++ oa,
       track.title ++ " " ++ track.artist]
    else
      [track.title ++ " " ++ track.artist, track.title ++ " - " ++ track.artist]
  queries ++ [track.title ++ " official"]

/-- The `for query in queries:` loop of `YouTubeClient.find_best_match`:
issue each query in order; the first non-empty result is cached and
returned; if all queries fail return `None`. -/
def search_queries_loop (provider : String → SearchOutcome) (now : Int) (track : Track) :
    List String → ClientState → Option String × ClientState
  | [], st => (none, st)
  | query :: rest, st =>
    match search_video provider st query with
    | (some (video_id, title, channel), st2) =>
      (some video_id,
       { st2 with cache := VideoCache.set st2.cache now track.title track.artist
                             video_id title channel query })
    | (none, st2) => search_queries_loop provider now track rest st2

/-- `YouTubeClient.find_best_match`: consult the cache first; on a hit
return the cached video id, otherwise run the planned queries. -/
def find_best_match (provider : String → SearchOutcome) (now : Int) (st : ClientState)
    (track : Track) : Option String × ClientState :=
  match VideoCache.get st.cache now track.title track.artist with
  | (some entry, cache2) => (some entry.video_id, { st with cache := cache2 })
  | (none, cache2) =>
    search_queries_loop provider now track (build_search_queries track)
      { st with cache := cache2 }

/-- The per-track loop of `process_playlist_creation` in `main.py`
(lines 124-153): before each track check `check_quota_limit(150)` and
`break` when it fails; otherwise resolve the track and, when not a dry
run, attempt the playlist add.  Returns `(found_tracks, not_found_tracks,
final state)`. -/
def process_tracks (provider : String → SearchOutcome) (sink : String → Bool)
    (dry_run : Bool) (now : Int) :
    List Track → ClientState → List Track × List Track × ClientState
  | [], st => ([], [], st)
  | track :: rest, st =>
    if check_quota_limit st.quota_used 150 then
      match find_best_match provider now st track with
      | (some video_id, st1) =>
        if dry_run then
          let r := process_tracks provider sink dry_run now rest st1
          (track :: r.1, r.2.1, r.2.2)
        else
          match add_video_to_playlist sink st1 video_id with
          | (true, st1a) =>
            let r := process_tracks provider sink dry_run now rest st1a
            (track :: r.1, r.2.1, r.2.2)
          | (false, st1a) =>
            let r := process_tracks provider sink dry_run now rest st1a
            (r.1, track :: r.2.1, r.2.2)
      | (none, st1) =>
        let r := process_tracks provider sink dry_run now rest st1
        (r.1, track :: r.2.1, r.2.2)
    else
      ([], [], st)

/-- C3 counterexample: for the non-cover track with title `T` and artist
`official`, the planned query list contains the string `T official` twice,
so the planner output is not deduplicated. -/
theorem build_search_queries_duplicate_cex :
    build_search_queries ⟨"T", "official", none, false, false⟩
      = ["T official", "T - official", "T official"] ∧
    ¬ (build_search_queries ⟨"T", "official", none, false, false⟩).Nodup := by
  exact ⟨rfl, by decide⟩

/-- C3 amended: the planner returns at most 5 queries in exactly the
claimed order — original-artist forms first for a cover whose original
artist is present and non-empty, performing-artist forms otherwise, with
the generic `official` form appended last — but the list is not
deduplicated. -/
theorem build_search_queries_spec (track : Track) :
    (∀ oa, track.original_artist = some oa → oa ≠ "" → track.is_cover = true →
      build_search_queries track
        = [track.title ++ " " ++ oa, track.title ++ " - " ++ oa,
           track.title ++ " " ++ track.artist, track.title ++ " official"]) ∧
    ((track.is_cover = false ∨ track.original_artist = none ∨
        track.original_artist = some "") →
      build_search_queries track
        = [track.title ++ " " ++ track.artist, track.title ++ " - " ++ track.artist,
           track.title ++ " official"]) ∧
    (build_search_queries track).length ≤ 5 := by
  refine ⟨?_, ?_, ?_⟩
  · intro oa hoa hne hc
    simp [build_search_queries, hoa, hne, hc]
  · intro h
    rcases h with h | h | h
    · simp [build_search_queries, h]
    · simp [build_search_queries, h]
    · simp [build_search_queries, h]
  · simp only [build_search_queries]
    split <;> simp

/-- C3 amended witness: a cover of `Hallelujah` by performer `X` with
original artist `Leonard Cohen` plans the four queries in the stated
order. -/
theorem build_search_queries_spec_witness :
    build_search_queries ⟨"Hallelujah", "X", some "Leonard Cohen", true, false⟩
      = ["Hallelujah Leonard Cohen", "Hallelujah - Leonard Cohen",
         "Hallelujah X", "Hallelujah official"] :=
  (build_search_queries_spec ⟨"Hallelujah", "X", some "Leonard Cohen", true, false⟩).1
    "Leonard Cohen" rfl (by decide) rfl

def provC1 : String → SearchOutcome :=
  fun _ => SearchOutcome.success "vidC1" "TitleC1" "ChanC1"

def trackC1 : Track := ⟨"SongA", "ArtistA", none, false, false⟩

def stC1 : ClientState := ⟨⟨[], []⟩, 9450⟩

/-- C1 counterexample: with 9450 units already used, `canAfford(100)`
(`check_quota_limit`) is false, yet `find_best_match` on a cache miss still
invokes the provider for its first query — charging 100 units and
returning a match — instead of skipping without a call. -/
theorem find_best_match_ignores_quota_cex :
    check_quota_limit stC1.quota_used 100 = false ∧
    (find_best_match provC1 0 stC1 trackC1).1 = some "vidC1" ∧
    (find_best_match provC1 0 stC1 trackC1).2.quota_used = 9550 := by
  exact ⟨by decide, rfl, rfl⟩

/-- On any query list, the result, the cache effect and the quota charge of
the query loop are independent of the ledger state. -/
theorem search_queries_loop_quota_indep (provider : String → SearchOutcome) (now : Int)
    (track : Track) (qs : List String) (c : VideoCache) (q1 q2 : Int) :
    (search_queries_loop provider now track qs ⟨c, q1⟩).1
      = (search_queries_loop provider now track qs ⟨c, q2⟩).1 ∧
    (search_queries_loop provider now track qs ⟨c, q1⟩).2.cache
      = (search_queries_loop provider now track qs ⟨c, q2⟩).2.cache ∧
    (search_queries_loop provider now track qs ⟨c, q1⟩).2.quota_used - q1
      = (search_queries_loop provider now track qs ⟨c, q2⟩).2.quota_used - q2 := by
  induction qs generalizing c q1 q2 with
  | nil => simp [search_queries_loop]
  | cons q rest ih =>
    cases hpq : provider q with
    | success v t ch =>
      refine ⟨?_, ?_, ?_⟩ <;> simp [search_queries_loop, search_video, hpq]
    | empty =>
      obtain ⟨h1, h2, h3⟩ := ih c (q1 + 100) (q2 + 100)
      simp only [search_queries_loop, search_video, hpq]
      exact ⟨h1, h2, by omega⟩
    | httpError =>
      obtain ⟨h1, h2, h3⟩ := ih c (q1 + 100) (q2 + 100)
      simp only [search_queries_loop, search_video, hpq]
      exact ⟨h1, h2, by omega⟩

/-- C1 amended: `find_best_match` performs no quota admission check at
all: its result, its cache effect and the number of units it charges are
independent of the ledger state, so on a cache miss every planned query is
issued (at 100 units each) until one succeeds, regardless of
`check_quota_limit`; the only admission check is the Run Coordinator's
`check_quota_limit(150)` before each song. -/
theorem find_best_match_quota_indep (provider : String → SearchOutcome) (now : Int)
    (c : VideoCache) (q1 q2 : Int) (track : Track) :
    (find_best_match provider now ⟨c, q1⟩ track).1
      = (find_best_match provider now ⟨c, q2⟩ track).1 ∧
    (find_best_match provider now ⟨c, q1⟩ track).2.cache
      = (find_best_match provider now ⟨c, q2⟩ track).2.cache ∧
    (find_best_match provider now ⟨c, q1⟩ track).2.quota_used - q1
      = (find_best_match provider now ⟨c, q2⟩ track).2.quota_used - q2 := by
  cases hg : VideoCache.get c now track.title track.artist with
  | mk o c2 =>
    cases o with
    | some e => refine ⟨?_, ?_, ?_⟩ <;> simp [find_best_match, hg]
    | none =>
      have h := search_queries_loop_quota_indep provider now track
        (build_search_queries track) c2 q1 q2
      simpa [find_best_match, hg] using h

/-- C4: a song whose cache key has a fresh entry (age strictly below seven
days) resolves to the cached video id and charges zero quota units. -/
theorem find_best_match_cache_hit (provider : String → SearchOutcome) (now : Int)
    (st : ClientState) (track : Track) (entry : CacheEntry) (T : Int)
    (hmem : lookupKey st.cache.cache (get_cache_key track.title track.artist) = some entry)
    (hts : entry.timestamp = some T) (hfresh : now - T < sevenDaysHours) :
    (find_best_match provider now st track).1 = some entry.video_id ∧
    (find_best_match provider now st track).2.quota_used = st.quota_used := by
  have hget := get_fresh st.cache track.title track.artist entry T now hmem hts hfresh
  refine ⟨?_, ?_⟩ <;> simp [find_best_match, hget]

def entryC4 : CacheEntry := ⟨"vidC4", "TitleC4", "ChanC4", some 10, "qC4"⟩

def stC4 : ClientState :=
  ⟨⟨[("songc|artistc", entryC4)], [("songc|artistc", entryC4)]⟩, 1234⟩

def trackC4 : Track := ⟨"SongC", "ArtistC", none, false, false⟩

def provC4 : String → SearchOutcome := fun _ => SearchOutcome.empty

/-- C4 witness: a concrete fresh hit resolves from the cache with the
quota counter unchanged. -/
theorem find_best_match_cache_hit_witness :
    (find_best_match provC4 20 stC4 trackC4).1 = some "vidC4" ∧
    (find_best_match provC4 20 stC4 trackC4).2.quota_used = 1234 :=
  find_best_match_cache_hit provC4 20 stC4 trackC4 entryC4 10 (by decide) rfl (by decide)

/-- C7: an `HttpError` on one search query charges the 100 units but is
treated as an empty result: the query loop goes on with the next candidate
query, and a song that resolves to `None` is recorded as not found while
the run goes on with the later songs. -/
theorem provider_error_recovered (provider : String → SearchOutcome) (sink : String → Bool)
    (dry_run : Bool) (now : Int) (st : ClientState) (query : String) (rest : List String)
    (track : Track) (tracks : List Track)
    (herr : provider query = SearchOutcome.httpError) :
    search_video provider st query = (none, { st with quota_used := st.quota_used + 100 }) ∧
    search_queries_loop provider now track (query :: rest) st
      = search_queries_loop provider now track rest
          { st with quota_used := st.quota_used + 100 } ∧
    ((find_best_match provider now st track).1 = none →
      check_quota_limit st.quota_used 150 = true →
      process_tracks provider sink dry_run now (track :: tracks) st
        = ((process_tracks provider sink dry_run now tracks
              (find_best_match provider now st track).2).1,
           track :: (process_tracks provider sink dry_run now tracks
              (find_best_match provider now st track).2).2.1,
           (process_tracks provider sink dry_run now tracks
              (find_best_match provider now st track).2).2.2)) := by
  refine ⟨?_, ?_, ?_⟩
  · simp [search_video, herr]
  · simp [search_queries_loop, search_video, herr]
  · intro hnone hq
    cases hm : find_best_match provider now st track with
    | mk o st1 =>
      rw [hm] at hnone
      subst hnone
      simp [process_tracks, hq, hm]

def provC7 : String → SearchOutcome := fun _ => SearchOutcome.httpError

def sinkC7 : String → Bool := fun _ => true

def stC7 : ClientState := ⟨⟨[], []⟩, 200⟩

def trackC7 : Track := ⟨"SongE", "ArtistE", none, false, false⟩

/-- C7 witness: a provider that always raises `HttpError` at a concrete
state. -/
theorem provider_error_recovered_witness :
    search_video provC7 stC7 "q0"
      = (none, { stC7 with quota_used := stC7.quota_used + 100 }) ∧
    search_queries_loop provC7 7 trackC7 ("q0" :: ["q1"]) stC7
      = search_queries_loop provC7 7 trackC7 ["q1"]
          { stC7 with quota_used := stC7.quota_used + 100 } ∧
    ((find_best_match provC7 7 stC7 trackC7).1 = none →
      check_quota_limit stC7.quota_used 150 = true →
      process_tracks provC7 sinkC7 false 7 (trackC7 :: []) stC7
        = ((process_tracks provC7 sinkC7 false 7 []
              (find_best_match provC7 7 stC7 trackC7).2).1,
           trackC7 :: (process_tracks provC7 sinkC7 false 7 []
              (find_best_match provC7 7 stC7 trackC7).2).2.1,
           (process_tracks provC7 sinkC7 false 7 []
              (find_best_match provC7 7 stC7 trackC7).2).2.2)) :=
  provider_error_recovered provC7 sinkC7 false 7 stC7 "q0" ["q1"] trackC7 [] rfl

def provC2 : String → SearchOutcome := fun _ => SearchOutcome.empty

def sinkC2 : String → Bool := fun _ => true

def trackC2 : Track := ⟨"SongB", "ArtistB", none, false, false⟩

def stC2 : ClientState := ⟨⟨[], []⟩, 9400⟩

/-- C2 counterexample: with 9400 units used, the coordinator cannot afford
150 units, halts before the only song without touching the state — but the
unprocessed song appears in neither result list: it is dropped, not
reported as `Skipped(QuotaExhausted)`. -/
theorem process_tracks_drops_unprocessed_cex :
    check_quota_limit stC2.quota_used 150 = false ∧
    process_tracks provC2 sinkC2 false 0 [trackC2] stC2 = ([], [], stC2) := by
  exact ⟨by decide, rfl⟩

/-- C2 amended: when the ledger cannot afford 150 units before a song, the
coordinator halts at once: no provider or sink call is made for that song
or any later one (the state is returned unchanged from the halt point, so
songs already processed keep their accumulated results), and the
unprocessed songs are omitted from both result lists rather than reported
as `Skipped(QuotaExhausted)`. -/
theorem process_tracks_halt (provider : String → SearchOutcome) (sink : String → Bool)
    (dry_run : Bool) (now : Int) (tracks : List Track) (st : ClientState)
    (h : check_quota_limit st.quota_used 150 = false) :
    process_tracks provider sink dry_run now tracks st = ([], [], st) := by
  cases tracks with
  | nil => rfl
  | cons t rest => simp [process_tracks, h]

/-- C2 amended witness: the halt at a concrete exhausted state. -/
theorem process_tracks_halt_witness :
    process_tracks provC2 sinkC2 true 0 [trackC2, trackC2] stC2 = ([], [], stC2) :=
  process_tracks_halt provC2 sinkC2 true 0 [trackC2, trackC2] stC2 (by decide)

/-- C5: for an entry whose stored timestamp denotes instant `T`, a lookup
strictly before `T` plus seven days returns the entry unchanged; a lookup
at or after that bound deletes the entry, persists the deletion and
returns absent; and a lookup never returns an entry of age at least seven
days. -/
theorem cache_freshness (vc : VideoCache) (song_title artist : String) (entry : CacheEntry)
    (T now : Int)
    (hmem : lookupKey vc.cache (get_cache_key song_title artist) = some entry)
    (hts : entry.timestamp = some T) :
    (now < T + sevenDaysHours →
      VideoCache.get vc now song_title artist = (some entry, vc)) ∧
    (T + sevenDaysHours ≤ now →
      (VideoCache.get vc now song_title artist).1 = none ∧
      (VideoCache.get vc now song_title artist).2.cache
        = eraseKey vc.cache (get_cache_key song_title artist) ∧
      (VideoCache.get vc now song_title artist).2.disk
        = (VideoCache.get vc now song_title artist).2.cache) ∧
    (∀ e, (VideoCache.get vc now song_title artist).1 = some e →
      e = entry ∧ now - T < sevenDaysHours) := by
  refine ⟨?_, ?_, ?_⟩
  · intro hlt
    exact get_fresh vc song_title artist entry T now hmem hts (by omega)
  · intro hge
    have hcond : ¬ (now - T < sevenDaysHours) := by omega
    refine ⟨?_, ?_, ?_⟩ <;> simp [VideoCache.get, hmem, hts, hcond]
  · intro e he
    by_cases hcond : now - T < sevenDaysHours
    · have := get_fresh vc song_title artist entry T now hmem hts hcond
      rw [this] at he
      exact ⟨by simpa using he.symm, hcond⟩
    · simp [VideoCache.get, hmem, hts, hcond] at he

def entryC5 : CacheEntry := ⟨"vidC5", "TitleC5", "ChanC5", some 0, "qC5"⟩

def vcC5 : VideoCache :=
  ⟨[("songd|artistd", entryC5)], [("songd|artistd", entryC5)]⟩

/-- C5 witness: an entry created at hour 0 is returned at 6 days 23 hours
(hour 167) and absent at 7 days 1 hour (hour 169). -/
theorem cache_freshness_witness :
    VideoCache.get vcC5 167 "SongD" "ArtistD" = (some entryC5, vcC5) ∧
    (VideoCache.get vcC5 169 "SongD" "ArtistD").1 = none :=
  ⟨(cache_freshness vcC5 "SongD" "ArtistD" entryC5 0 167 (by decide) rfl).1 (by decide),
   ((cache_freshness vcC5 "SongD" "ArtistD" entryC5 0 169 (by decide) rfl).2.1
      (by decide)).1⟩

/-- A parsed JSON value as `json.load` returns it.  Leaf values other than
strings do not change what `load_cache` raises and are not represented. -/
inductive Json where
  | str (s : String)
  | obj (fields : List (String × Json))
  | arr (elems : List Json)

/-- The Python exceptions `load_cache` can meet: the two its `except`
clause catches and the two that escape it. -/
inductive PyError where
  | jsonDecodeError
  | keyError
  | typeError
  | attributeError
  deriving DecidableEq

/-- The state of the cache file when `load_cache` runs. -/
inductive RawFile where
  | absentFile
  | notJson
  | parsed (j : Json)

/-- The keyword parameters of the `CacheEntry` dataclass constructor. -/
def requiredKeys : List String :=
  ["video_id", "title", "channel", "timestamp", "search_query"]

/-- Lookup in a parsed JSON object. -/
def jsonLookup : List (String × Json) → String → Option Json
  | [], _ => none
  | (k, v) :: rest, key => if k = key then some v else jsonLookup rest key

/-- The string carried by a JSON leaf; a non-string leaf is coarsened to
`""` (Python would store the raw value — the difference never affects
whether loading raises). -/
def jsonString : Option Json → String
  | some (Json.str s) => s
  | _ => ""

/-- Model of `datetime.fromisoformat` on a stored timestamp string under
the instants-as-integers abstraction: decimal strings denote instants and
anything else raises `ValueError` (`none`). -/
def fromisoformat (s : String) : Option Int :=
  s.toInt?

/-- `CacheEntry(**entry_data)`: succeeds when `entry_data` is a mapping
whose key set is exactly the dataclass's five fields; any other shape
raises `TypeError` (missing argument, unexpected keyword, or `**` applied
to a non-mapping). -/
def construct_entry : Json → Except PyError CacheEntry
  | Json.obj fields =>
    if (fields.map Prod.fst).all (fun k => k ∈ requiredKeys) ∧
       requiredKeys.all (fun k => k ∈ fields.map Prod.fst) then
      Except.ok
        ⟨jsonString (jsonLookup fields "video_id"),
         jsonString (jsonLookup fields "title"),
         jsonString (jsonLookup fields "channel"),
         fromisoformat (jsonString (jsonLookup fields "timestamp")),
         jsonString (jsonLookup fields "search_query")⟩
    else
      Except.error PyError.typeError
  | _ => Except.error PyError.typeError

/-- The `for key, entry_data in data.items():` loop of `load_cache`: build
each entry in order; the first exception aborts the loop. -/
def load_entries : List (String × Json) → Except PyError (List (String × CacheEntry))
  | [] => Except.ok []
  | (key, j) :: rest =>
    match construct_entry j with
    | Except.ok e =>
      match load_entries rest with
      | Except.ok es => Except.ok ((key, e) :: es)
      | Except.error err => Except.error err
    | Except.error err => Except.error err

/-- `VideoCache.load_cache`: a missing file leaves the cache empty; a file
`json.load` cannot decode is caught (`json.JSONDecodeError`) and the cache
starts fresh, as is a `KeyError`; but `data.items()` on a non-object
raises `AttributeError` and `CacheEntry(**entry_data)` on a wrong-shaped
entry raises `TypeError`, and neither is caught. -/
def load_cache : RawFile → Except PyError (List (String × CacheEntry))
  | RawFile.absentFile => Except.ok []
  | RawFile.notJson => Except.ok []
  | RawFile.parsed (Json.obj fields) =>
    match load_entries fields with
    | Except.ok es => Except.ok es
    | Except.error PyError.jsonDecodeError => Except.ok []
    | Except.error PyError.keyError => Except.ok []
    | Except.error e => Except.error e
  | RawFile.parsed _ => Except.error PyError.attributeError

/-- C8: loading tolerates an undecodable file, but a file that decodes to
JSON of the wrong shape — here the valid JSON object whose single entry is
the string `"oops"` rather than a five-field mapping — raises `TypeError`
out of the load instead of starting with an empty cache, because only
`json.JSONDecodeError` and `KeyError` are caught. -/
theorem load_cache_raises_on_malformed_entry :
    load_cache RawFile.notJson = Except.ok [] ∧
    load_cache (RawFile.parsed (Json.obj [("some song|artist", Json.str "oops")]))
      = Except.error PyError.typeError ∧
    load_cache (RawFile.parsed (Json.arr []))
      = Except.error PyError.attributeError := by
  exact ⟨rfl, rfl, rfl⟩

end Setlist2YTMusic
